import Mathlib

/-!
Verification development for the AutoResumeFiller persistence and archival
subsystem (backend/services/data).  The Python sources are shallowly embedded:

* `schemas.py` becomes plain Lean structures with Bool-valued validity
  functions mirroring the Pydantic field constraints.  Wall-clock time
  (`datetime.now()`) is modelled as an explicit `Nat` argument threaded
  through every operation; the `EmailStr`/`HttpUrl` format validators of
  Pydantic are not modelled (they are third-party library behaviour), and
  Python floats (the `gpa` field) are modelled as rationals.
* `user_data_manager.py` becomes a pure state-transition function on a
  `StoreState` record; file contents of the canonical profile file and of
  backups are represented by the parsed `UserProfile` values they serialize
  (JSON serialization of Pydantic models is injective on records), and
  backup filenames `auto_backup_<timestamp>.json` are represented by the
  second-resolution timestamp `Nat` they are derived from.
* `data_exporter.py` becomes pure functions over byte lists (`List Nat`);
  SHA-256, YAML/JSON encoding and Pydantic re-parsing are taken as function
  parameters since they are external library calls.
-/

/-! ### Schema layer: backend/services/data/schemas.py -/

/-- Bool test for the regex `^\d{4}-\d{2}$` used by the date fields. -/
def matchesYearMonth (s : String) : Bool :=
  match s.data with
  | [a, b, c, d, e, f, g] =>
    a.isDigit && b.isDigit && c.isDigit && d.isDigit && e == '-' && f.isDigit && g.isDigit
  | _ => false

/-- Bool test for a run of 9 to 15 digits (the tail of the phone regex). -/
def digitRun (cs : List Char) : Bool :=
  cs.all Char.isDigit && decide (9 ≤ cs.length) && decide (cs.length ≤ 15)

/-- Bool test for the phone regex `^\+?1?\d{9,15}$` (optional `+`, optional
`1`, then 9-15 digits; all backtracking alternatives are enumerated). -/
def matchesPhone (s : String) : Bool :=
  let cs := s.data
  digitRun cs ||
  (match cs with | '1' :: r => digitRun r | _ => false) ||
  (match cs with
   | '+' :: r => digitRun r || (match r with | '1' :: r2 => digitRun r2 | _ => false)
   | _ => false)

/-- Validator shared by `end_date` fields: `None`, `"Present"`, or `YYYY-MM`. -/
def endDateOk : Option String → Bool
  | none => true
  | some v => v == "Present" || matchesYearMonth v

/-- Length bound for an optional string field (`max_length=n`). -/
def optLenLe (o : Option String) (n : Nat) : Bool :=
  match o with
  | none => true
  | some s => decide (s.length ≤ n)

/-- PersonalInfo from schemas.py.  URL and email fields are plain strings. -/
structure PersonalInfo where
  first_name : String
  last_name : String
  email : String
  phone : Option String := none
  linkedin_url : Option String := none
  github_url : Option String := none
  portfolio_url : Option String := none
  address : Option String := none
  city : Option String := none
  state : Option String := none
  zip_code : Option String := none
  country : String := "USA"
deriving DecidableEq, Repr

/-- Field constraints of `PersonalInfo` (lengths and the phone pattern). -/
def PersonalInfo.isValid (p : PersonalInfo) : Bool :=
  decide (1 ≤ p.first_name.length) && decide (p.first_name.length ≤ 100) &&
  decide (1 ≤ p.last_name.length) && decide (p.last_name.length ≤ 100) &&
  (match p.phone with | none => true | some s => matchesPhone s) &&
  optLenLe p.address 200 && optLenLe p.city 100 && optLenLe p.state 50 &&
  optLenLe p.zip_code 20 && decide (p.country.length ≤ 100)

/-- Education entry from schemas.py; `gpa` is modelled as a rational. -/
structure Education where
  institution : String
  degree : String
  field_of_study : String
  start_date : String
  end_date : Option String := none
  gpa : Option Rat := none
  honors : List String := []
  relevant_coursework : List String := []
deriving DecidableEq, Repr

/-- Field constraints of `Education` including the `end_date` validator. -/
def Education.isValid (e : Education) : Bool :=
  decide (1 ≤ e.institution.length) && decide (e.institution.length ≤ 200) &&
  decide (1 ≤ e.degree.length) && decide (e.degree.length ≤ 100) &&
  decide (1 ≤ e.field_of_study.length) && decide (e.field_of_study.length ≤ 150) &&
  matchesYearMonth e.start_date && endDateOk e.end_date &&
  (match e.gpa with | none => true | some g => decide (0 ≤ g) && decide (g ≤ 4))

/-- WorkExperience entry from schemas.py. -/
structure WorkExperience where
  company : String
  position : String
  start_date : String
  end_date : Option String := none
  location : Option String := none
  responsibilities : List String
  achievements : List String := []
  technologies : List String := []
deriving DecidableEq, Repr

/-- Field constraints of `WorkExperience`; the `min_length=1` bound on
`responsibilities` and the duplicate explicit validator coincide. -/
def WorkExperience.isValid (w : WorkExperience) : Bool :=
  decide (1 ≤ w.company.length) && decide (w.company.length ≤ 200) &&
  decide (1 ≤ w.position.length) && decide (w.position.length ≤ 150) &&
  matchesYearMonth w.start_date && endDateOk w.end_date &&
  optLenLe w.location 150 && !w.responsibilities.isEmpty

/-- Project entry from schemas.py. -/
structure Project where
  name : String
  description : String
  start_date : Option String := none
  end_date : Option String := none
  url : Option String := none
  technologies : List String := []
  highlights : List String := []
deriving DecidableEq, Repr

/-- Field constraints of `Project`. -/
def Project.isValid (p : Project) : Bool :=
  decide (1 ≤ p.name.length) && decide (p.name.length ≤ 200) &&
  decide (1 ≤ p.description.length) && decide (p.description.length ≤ 1000) &&
  (match p.start_date with | none => true | some d => matchesYearMonth d) &&
  endDateOk p.end_date

/-- Certification entry from schemas.py. -/
structure Certification where
  name : String
  issuer : String
  date_obtained : String
  expiration_date : Option String := none
  credential_id : Option String := none
  url : Option String := none
deriving DecidableEq, Repr

/-- Field constraints of `Certification`. -/
def Certification.isValid (c : Certification) : Bool :=
  decide (1 ≤ c.name.length) && decide (c.name.length ≤ 200) &&
  decide (1 ≤ c.issuer.length) && decide (c.issuer.length ≤ 150) &&
  matchesYearMonth c.date_obtained &&
  (match c.expiration_date with | none => true | some d => matchesYearMonth d) &&
  optLenLe c.credential_id 100

/-- UserProfile from schemas.py; `last_updated` is a logical clock value. -/
structure UserProfile where
  version : String := "1.0"
  last_updated : Nat
  personal_info : PersonalInfo
  education : List Education := []
  work_experience : List WorkExperience := []
  skills : List String := []
  projects : List Project := []
  certifications : List Certification := []
  summary : Option String := none
deriving DecidableEq, Repr

/-- Field constraints of `UserProfile` and its nested entries. -/
def UserProfile.isValid (u : UserProfile) : Bool :=
  u.personal_info.isValid &&
  u.education.all Education.isValid &&
  u.work_experience.all WorkExperience.isValid &&
  u.projects.all Project.isValid &&
  u.certifications.all Certification.isValid &&
  optLenLe u.summary 2000

/-- Model of constructing `UserProfile(**data)` at clock value `now`: the
`model_validator(mode='after') update_timestamp` overwrites `last_updated`
with the current time, whatever the incoming data said. -/
def UserProfile.construct (data : UserProfile) (now : Nat) : UserProfile :=
  { data with last_updated := now }

/-! ### Profile store: backend/services/data/user_data_manager.py -/

/-- Backup entry in the backups folder.  `name` is the second-resolution
timestamp embedded in the filename `auto_backup_<timestamp>.json` (the map
from timestamps to filenames is injective, so the timestamp stands for the
filename); `mtime` is the file's modification time, which `shutil.copy2`
copies from the canonical file being backed up. -/
structure BackupEntry where
  name : Nat
  mtime : Nat
  content : UserProfile
deriving DecidableEq, Repr

/-- State of one data directory: the canonical `user_profile.json` (content
and mtime when present), the backups folder, and any temporary files. -/
structure StoreState where
  canonical : Option (UserProfile × Nat)
  backups : List BackupEntry
  temps : List String
deriving DecidableEq, Repr

/-- Insertion step of the modelled `sorted(key=mtime, reverse=True)`. -/
def insertByMtimeDesc (b : BackupEntry) : List BackupEntry → List BackupEntry
  | [] => [b]
  | c :: l => if c.mtime ≤ b.mtime then b :: c :: l else c :: insertByMtimeDesc b l

/-- Sort backups by modification time, newest first, as
`sorted(self.backups_dir.glob(...), key=lambda p: p.stat().st_mtime, reverse=True)`. -/
def sortByMtimeDesc (l : List BackupEntry) : List BackupEntry :=
  l.foldr insertByMtimeDesc []

/-- UserDataManager._cleanup_old_backups: list backups newest first and
delete every entry beyond position `max_backups` (default 10). -/
def cleanup_old_backups (backups : List BackupEntry) (max_backups : Nat := 10) :
    List BackupEntry :=
  (sortByMtimeDesc backups).take max_backups

/-- UserDataManager._create_backup at clock value `now`: if the canonical
file exists, copy it (content and mtime, via `shutil.copy2`) to
`auto_backup_<now>.json` — overwriting any existing backup with the same
second-resolution name — then run rotation. -/
def create_backup (s : StoreState) (now : Nat) : StoreState :=
  match s.canonical with
  | none => s
  | some (content, mtime) =>
    let others := s.backups.filter fun b => b.name ≠ now
    { s with backups := cleanup_old_backups (others ++ [⟨now, mtime, content⟩]) }

/-- Step of the atomic-write sequence at which an injected I/O failure
occurs: writing the temporary file, `os.fsync`, or `os.replace`. -/
inductive SaveStep
  | writeStep
  | fsyncStep
  | replaceStep
deriving DecidableEq, Repr

/-- Error raised by `save_user_profile`: `IOError("Failed to save user
profile: " + cause)`. -/
inductive SaveError
  | ioFailure (msg : String)
deriving DecidableEq, Repr

/-- UserDataManager.save_user_profile at clock value `now`, with the fresh
temporary filename chosen by `tempfile.mkstemp` and an optional injected
failure `failAt` (the step that fails together with the message of the
underlying exception).  The sequence mirrors the source: refresh
`last_updated`, serialize, optionally back up the existing canonical file,
create the temporary file, write + fsync, atomically `os.replace` it onto
the canonical path; on any exception the temporary file is unlinked and an
`IOError` wrapping the cause is raised. -/
def save_user_profile (s : StoreState) (profile : UserProfile)
    (createBackup : Bool) (now : Nat) (tempName : String)
    (failAt : Option (SaveStep × String)) : Except SaveError Unit × StoreState :=
  let profile1 := { profile with last_updated := now }
  let s1 := if createBackup && s.canonical.isSome then create_backup s now else s
  let s2 := { s1 with temps := tempName :: s1.temps }
  match failAt with
  | none =>
    (Except.ok (),
     { s2 with canonical := some (profile1, now), temps := s2.temps.erase tempName })
  | some (_, cause) =>
    (Except.error (SaveError.ioFailure ("Failed to save user profile: " ++ cause)),
     { s2 with temps := s2.temps.erase tempName })

/-- Advisory-lock state of the canonical file as seen by one opener. -/
inductive LockState
  | free
  | sharedHeld (readers : Nat)
  | exclusiveHeld
deriving DecidableEq, Repr

/-- Errors of `load_user_profile`: the `IOError` raised when the
non-blocking shared lock cannot be acquired, the `ValueError` for
unparseable JSON, and Pydantic's `ValidationError`. -/
inductive LoadError
  | lockContention (msg : String)
  | corruptData (msg : String)
  | schemaViolation
deriving DecidableEq, Repr

/-- UserDataManager.load_user_profile at clock value `now` with the
canonical file's advisory lock in state `lock`: returns `none` if no
canonical file exists; fails fast when an exclusive writer holds the lock
(`LOCK_SH | LOCK_NB` is contended); otherwise parses and re-validates the
stored record — `UserProfile(**data)` re-runs the field validators and the
`update_timestamp` model validator. -/
def load_user_profile (s : StoreState) (lock : LockState) (now : Nat) :
    Except LoadError (Option UserProfile) :=
  match s.canonical with
  | none => Except.ok none
  | some (content, _) =>
    match lock with
    | LockState.exclusiveHeld =>
      Except.error
        (LoadError.lockContention "User profile file is locked by another process")
    | _ =>
      if content.isValid then Except.ok (some (UserProfile.construct content now))
      else Except.error LoadError.schemaViolation

/-- Filesystem and lock primitives invoked by the manager's operations. -/
inductive FileOp
  | copyToBackup
  | mkstemp
  | writeTemp
  | fsyncTemp
  | replaceCanonical
  | openRead
  | lockShared
  | lockExclusive
  | unlock
  | readParse
deriving DecidableEq, Repr

/-- Sequence of filesystem and lock primitives executed by a successful
`save_user_profile`, read off the source: optional backup copy, then
`mkstemp`, write, `os.fsync`, `os.replace`.  No lock call appears anywhere
in the save path. -/
def saveOps (createBackup : Bool) (canonicalExists : Bool) : List FileOp :=
  (if createBackup && canonicalExists then [FileOp.copyToBackup] else []) ++
  [FileOp.mkstemp, FileOp.writeTemp, FileOp.fsyncTemp, FileOp.replaceCanonical]

/-- Sequence of filesystem and lock primitives executed by a successful
`load_user_profile`: open, take the shared non-blocking lock, read and
parse, release the lock. -/
def loadOps (canonicalExists : Bool) : List FileOp :=
  if canonicalExists then
    [FileOp.openRead, FileOp.lockShared, FileOp.readParse, FileOp.unlock]
  else []

/-- Fold of successful backup-creating saves (`create_backup = True`,
no injected failure), one per `(profile, time)` input. -/
def runSaves (s : StoreState) : List (UserProfile × Nat) → StoreState
  | [] => s
  | (p, t) :: rest => runSaves (save_user_profile s p true t "tmp" none).2 rest

/-- UserDataManager.delete_user_profile at clock value `now`: returns
`false` doing nothing when no canonical file exists, otherwise backs the
canonical file up and removes it. -/
def delete_user_profile (s : StoreState) (now : Nat) : Bool × StoreState :=
  match s.canonical with
  | none => (false, s)
  | some _ => (true, { create_backup s now with canonical := none })

/-! ### Helper lemmas about the backup-rotation sort -/

/-- Membership after one insertion step. -/
theorem insertByMtimeDesc_mem {a b : BackupEntry} {l : List BackupEntry}
    (h : a ∈ insertByMtimeDesc b l) : a = b ∨ a ∈ l := by
  induction l with
  | nil =>
    simp [insertByMtimeDesc] at h
    exact Or.inl h
  | cons c l ih =>
    by_cases hc : c.mtime ≤ b.mtime
    · simpa [insertByMtimeDesc, hc] using h
    · simp only [insertByMtimeDesc, if_neg hc, List.mem_cons] at h
      rcases h with h | h
      · exact Or.inr (by simp [h])
      · rcases ih h with h | h
        · exact Or.inl h
        · exact Or.inr (by simp [h])

/-- Membership is preserved by the modelled sort. -/
theorem sortByMtimeDesc_mem {a : BackupEntry} {l : List BackupEntry}
    (h : a ∈ sortByMtimeDesc l) : a ∈ l := by
  induction l with
  | nil => simp [sortByMtimeDesc] at h
  | cons c l ih =>
    rcases insertByMtimeDesc_mem (by simpa [sortByMtimeDesc] using h) with h' | h'
    · simp [h']
    · simp [ih h']

/-- Inserting a strictly older entry leaves a newer head in place. -/
theorem insertByMtimeDesc_cons_of_lt {c b : BackupEntry} {r : List BackupEntry}
    (h : c.mtime < b.mtime) :
    insertByMtimeDesc c (b :: r) = b :: insertByMtimeDesc c r := by
  simp [insertByMtimeDesc, Nat.not_le.mpr h]

/-- Folding insertions over entries all strictly older than `b` keeps `b`
at the head. -/
theorem foldr_insert_top {b : BackupEntry} {l : List BackupEntry}
    (h : ∀ c ∈ l, c.mtime < b.mtime) :
    l.foldr insertByMtimeDesc [b] = b :: sortByMtimeDesc l := by
  induction l with
  | nil => rfl
  | cons c l ih =>
    have hc : c.mtime < b.mtime := h c (by simp)
    have ih' := ih fun d hd => h d (by simp [hd])
    show insertByMtimeDesc c (l.foldr insertByMtimeDesc [b])
        = b :: sortByMtimeDesc (c :: l)
    rw [ih']
    rw [insertByMtimeDesc_cons_of_lt hc]
    rfl

/-- Sorting after appending a strictly newest entry puts it at the head. -/
theorem sortByMtimeDesc_append_top {l : List BackupEntry} {b : BackupEntry}
    (h : ∀ c ∈ l, c.mtime < b.mtime) :
    sortByMtimeDesc (l ++ [b]) = b :: sortByMtimeDesc l := by
  show (l ++ [b]).foldr insertByMtimeDesc [] = b :: sortByMtimeDesc l
  rw [List.foldr_append]
  exact foldr_insert_top h

/-- Strictly-descending-by-mtime order on a backup list. -/
def SortedByMtimeDesc (l : List BackupEntry) : Prop :=
  l.Pairwise fun a b => b.mtime < a.mtime

/-- The modelled sort is the identity on an already sorted list. -/
theorem sortByMtimeDesc_eq_self {l : List BackupEntry} (h : SortedByMtimeDesc l) :
    sortByMtimeDesc l = l := by
  induction l with
  | nil => rfl
  | cons c l ih =>
    rcases List.pairwise_cons.mp h with ⟨hc, hl⟩
    show insertByMtimeDesc c (sortByMtimeDesc l) = c :: l
    rw [ih hl]
    cases l with
    | nil => rfl
    | cons d l' =>
      have hd : d.mtime ≤ c.mtime := le_of_lt (hc d (by simp))
      simp [insertByMtimeDesc, hd]

/-- Truncating before or after appending to an already truncated tail is
the same. -/
theorem take_append_take {α : Type} (a b : List α) (n : Nat) :
    (a ++ b.take n).take n = (a ++ b).take n := by
  rw [List.take_append_eq_append_take, List.take_append_eq_append_take, List.take_take]
  congr 2
  exact Nat.min_eq_left (Nat.sub_le n a.length)

/-- Canonical file is untouched by backup creation. -/
theorem create_backup_canonical (s : StoreState) (now : Nat) :
    (create_backup s now).canonical = s.canonical := by
  cases h : s.canonical <;> simp [create_backup, h]

/-- Temporary files are untouched by backup creation. -/
theorem create_backup_temps (s : StoreState) (now : Nat) :
    (create_backup s now).temps = s.temps := by
  cases h : s.canonical <;> simp [create_backup, h]

/-- Successful save installs the timestamp-refreshed record as the new
canonical content with mtime `now`. -/
theorem save_success_canonical (s : StoreState) (p : UserProfile) (cb : Bool)
    (now : Nat) (tmp : String) :
    (save_user_profile s p cb now tmp none).2.canonical
      = some ({ p with last_updated := now }, now) := by
  simp [save_user_profile]

/-- Effect of a backup-creating save on the backups folder when the
canonical file exists, every existing backup is strictly older than it,
and the new backup filename is fresh. -/
theorem save_step_backups (s : StoreState) (c0 : UserProfile) (m0 : Nat)
    (p : UserProfile) (t : Nat) (tmp : String) (failAt : Option (SaveStep × String))
    (hc : s.canonical = some (c0, m0))
    (hmt : ∀ b ∈ s.backups, b.mtime < m0)
    (hname : ∀ b ∈ s.backups, b.name ≠ t) :
    (save_user_profile s p true t tmp failAt).2.backups
      = ((⟨t, m0, c0⟩ : BackupEntry) :: sortByMtimeDesc s.backups).take 10 := by
  have hfilter : (s.backups.filter fun b => !decide (b.name = t)) = s.backups := by
    rw [List.filter_eq_self]
    intro b hb
    simpa using hname b hb
  have hsort : sortByMtimeDesc (s.backups ++ [⟨t, m0, c0⟩])
      = (⟨t, m0, c0⟩ : BackupEntry) :: sortByMtimeDesc s.backups :=
    sortByMtimeDesc_append_top hmt
  cases failAt with
  | none =>
    simp [save_user_profile, create_backup, hc, cleanup_old_backups]
    rw [hfilter, hsort]
    rfl
  | some f =>
    simp [save_user_profile, create_backup, hc, cleanup_old_backups]
    rw [hfilter, hsort]
    rfl

/-! ### Sample data used by witnesses -/

/-- Concrete personal-information block passing all field validators. -/
def samplePersonal : PersonalInfo :=
  { first_name := "Ada", last_name := "Lovelace", email := "ada@example.com",
    phone := some "+11234567890" }

/-- Concrete schema-valid profile record. -/
def sampleProfile : UserProfile :=
  { last_updated := 0, personal_info := samplePersonal, skills := ["math"] }

/-- A second concrete profile, distinguishable from `sampleProfile`. -/
def sampleProfileB : UserProfile :=
  { sampleProfile with skills := ["poetry"] }

/-! ### Claims about the profile store -/

/-- C1: for every profile record and every failure during the
temporary-file write, fsync, or atomic replace step of save, the
temporary file is removed, the canonical profile file retains exactly its
previous content (or remains absent), and the caller receives an
`IOError` wrapping the underlying cause. -/
theorem save_failure_leaves_canonical_intact (s : StoreState) (p : UserProfile)
    (createBackup : Bool) (now : Nat) (tempName : String) (step : SaveStep)
    (cause : String) (hfresh : tempName ∉ s.temps) :
    (save_user_profile s p createBackup now tempName (some (step, cause))).1
        = Except.error (SaveError.ioFailure ("Failed to save user profile: " ++ cause)) ∧
    (save_user_profile s p createBackup now tempName (some (step, cause))).2.canonical
        = s.canonical ∧
    (save_user_profile s p createBackup now tempName (some (step, cause))).2.temps
        = s.temps ∧
    tempName ∉ (save_user_profile s p createBackup now tempName (some (step, cause))).2.temps := by
  by_cases h : createBackup && s.canonical.isSome
  · refine ⟨rfl, ?_, ?_, ?_⟩
    · simp [save_user_profile, h, create_backup_canonical]
    · simp [save_user_profile, h, create_backup_temps]
    · simp [save_user_profile, h, create_backup_temps]
      exact hfresh
  · refine ⟨rfl, ?_, ?_, ?_⟩
    · simp [save_user_profile, h]
    · simp [save_user_profile, h]
    · simp [save_user_profile, h]
      exact hfresh

/-- Witness for C1 at a concrete store, record, and replace-step failure. -/
theorem save_failure_leaves_canonical_intact_witness :
    ("tmp0" ∉ (StoreState.mk (some (sampleProfile, 5)) [] []).temps) ∧
    ((save_user_profile (StoreState.mk (some (sampleProfile, 5)) [] []) sampleProfileB
        true 9 "tmp0" (some (SaveStep.replaceStep, "disk full"))).1
      = Except.error (SaveError.ioFailure "Failed to save user profile: disk full") ∧
     (save_user_profile (StoreState.mk (some (sampleProfile, 5)) [] []) sampleProfileB
        true 9 "tmp0" (some (SaveStep.replaceStep, "disk full"))).2.canonical
      = some (sampleProfile, 5) ∧
     (save_user_profile (StoreState.mk (some (sampleProfile, 5)) [] []) sampleProfileB
        true 9 "tmp0" (some (SaveStep.replaceStep, "disk full"))).2.temps = [] ∧
     "tmp0" ∉ (save_user_profile (StoreState.mk (some (sampleProfile, 5)) [] []) sampleProfileB
        true 9 "tmp0" (some (SaveStep.replaceStep, "disk full"))).2.temps) := by
  refine ⟨by decide, ?_⟩
  exact save_failure_leaves_canonical_intact (StoreState.mk (some (sampleProfile, 5)) [] [])
    sampleProfileB true 9 "tmp0" SaveStep.replaceStep "disk full" (by decide)

/-- C5: for every valid profile record R, saving R and then loading
returns a record equal to R in every field except `last_updated`, which is
refreshed to the load-time clock. -/
theorem save_then_load_roundtrip (s : StoreState) (R : UserProfile)
    (createBackup : Bool) (tsave tload : Nat) (tmp : String)
    (hvalid : R.isValid = true) :
    load_user_profile (save_user_profile s R createBackup tsave tmp none).2
        LockState.free tload
      = Except.ok (some { R with last_updated := tload }) := by
  have hval : UserProfile.isValid { R with last_updated := tsave } = true := hvalid
  simp [save_user_profile, load_user_profile, UserProfile.construct, hval]

/-- Witness for C5 at a concrete valid record. -/
theorem save_then_load_roundtrip_witness :
    sampleProfile.isValid = true ∧
    load_user_profile (save_user_profile (StoreState.mk none [] []) sampleProfile
        true 3 "tmp0" none).2 LockState.free 7
      = Except.ok (some { sampleProfile with last_updated := 7 }) :=
  ⟨by decide,
   save_then_load_roundtrip (StoreState.mk none [] []) sampleProfile true 3 7 "tmp0"
     (by decide)⟩

/-- C10: constructing a profile record — and therefore every load from
disk — resets `last_updated` to the current clock via the
post-construction validator, so a load at a clock value different from
the stored timestamp never returns the stored timestamp, and two loads of
the same unchanged canonical file at different clock values return records
whose timestamps differ. -/
theorem load_always_refreshes_timestamp (s : StoreState) (p : UserProfile)
    (m t1 t2 : Nat) (hc : s.canonical = some (p, m)) (hvalid : p.isValid = true)
    (hne : t1 ≠ t2) :
    (∀ data now, (UserProfile.construct data now).last_updated = now) ∧
    load_user_profile s LockState.free t1
      = Except.ok (some (UserProfile.construct p t1)) ∧
    (t1 ≠ p.last_updated →
      ∀ q, load_user_profile s LockState.free t1 = Except.ok (some q) →
        q.last_updated ≠ p.last_updated) ∧
    (∀ q1 q2, load_user_profile s LockState.free t1 = Except.ok (some q1) →
      load_user_profile s LockState.free t2 = Except.ok (some q2) →
      q1.last_updated ≠ q2.last_updated) := by
  have hload : ∀ t, load_user_profile s LockState.free t
      = Except.ok (some (UserProfile.construct p t)) := by
    intro t
    simp [load_user_profile, hc, hvalid]
  refine ⟨fun data now => rfl, hload t1, ?_, ?_⟩
  · intro hstored q hq
    rw [hload t1] at hq
    have hq' : UserProfile.construct p t1 = q := by simpa using hq
    simpa [← hq', UserProfile.construct] using hstored
  · intro q1 q2 hq1 hq2
    rw [hload t1] at hq1
    rw [hload t2] at hq2
    have h1 : UserProfile.construct p t1 = q1 := by simpa using hq1
    have h2 : UserProfile.construct p t2 = q2 := by simpa using hq2
    simpa [← h1, ← h2, UserProfile.construct] using hne

/-- Witness for C10 at a concrete store and two distinct clock values. -/
theorem load_always_refreshes_timestamp_witness :
    ((StoreState.mk (some (sampleProfile, 5)) [] []).canonical = some (sampleProfile, 5) ∧
     sampleProfile.isValid = true ∧ (3 : Nat) ≠ 4) ∧
    load_user_profile (StoreState.mk (some (sampleProfile, 5)) [] []) LockState.free 3
      = Except.ok (some (UserProfile.construct sampleProfile 3)) := by
  refine ⟨by refine ⟨rfl, by decide, by decide⟩, ?_⟩
  exact (load_always_refreshes_timestamp (StoreState.mk (some (sampleProfile, 5)) [] [])
    sampleProfile 5 3 4 rfl (by decide) (by decide)).2.1

/-- C4: a save while the canonical file is absent creates zero backup
entries, and a backup-creating save while the canonical file is present
adds exactly one new backup entry holding the prior canonical content
(stated for stores whose existing backups are strictly older than the
canonical file and whose backup names differ from the fresh timestamp,
as produced by sequential operation). -/
theorem save_backup_creation (s : StoreState) (p c0 : UserProfile)
    (createBackup : Bool) (now m0 : Nat) (tmp : String)
    (failAt : Option (SaveStep × String)) :
    (s.canonical = none →
      (save_user_profile s p createBackup now tmp failAt).2.backups = s.backups) ∧
    (s.canonical = some (c0, m0) →
      (∀ b ∈ s.backups, b.mtime < m0) →
      (∀ b ∈ s.backups, b.name ≠ now) →
      ((⟨now, m0, c0⟩ : BackupEntry) ∈ (save_user_profile s p true now tmp failAt).2.backups ∧
       (⟨now, m0, c0⟩ : BackupEntry) ∉ s.backups ∧
       ∀ b ∈ (save_user_profile s p true now tmp failAt).2.backups,
         b = ⟨now, m0, c0⟩ ∨ b ∈ s.backups)) := by
  constructor
  · intro hnone
    cases failAt with
    | none => simp [save_user_profile, hnone]
    | some f => simp [save_user_profile, hnone]
  · intro hc hmt hname
    have hstep := save_step_backups s c0 m0 p now tmp failAt hc hmt hname
    refine ⟨?_, ?_, ?_⟩
    · rw [hstep]
      exact List.mem_cons_self _ _
    · intro hmem
      exact hname _ hmem rfl
    · intro b hb
      rw [hstep] at hb
      rcases List.mem_cons.mp (List.take_subset _ _ hb) with h | h
      · exact Or.inl h
      · exact Or.inr (sortByMtimeDesc_mem h)

/-- Witness for C4: an absent-canonical save creates no backup, and an
overwriting save on a one-backup store creates exactly one new entry. -/
theorem save_backup_creation_witness :
    ((StoreState.mk none [] []).canonical = none →
      (save_user_profile (StoreState.mk none [] []) sampleProfile true 3 "t" none).2.backups
        = []) ∧
    ((⟨9, 5, sampleProfile⟩ : BackupEntry)
        ∈ (save_user_profile
            (StoreState.mk (some (sampleProfile, 5)) [⟨4, 2, sampleProfileB⟩] [])
            sampleProfileB true 9 "t" none).2.backups ∧
     (⟨9, 5, sampleProfile⟩ : BackupEntry) ∉ [(⟨4, 2, sampleProfileB⟩ : BackupEntry)] ∧
     ∀ b ∈ (save_user_profile
            (StoreState.mk (some (sampleProfile, 5)) [⟨4, 2, sampleProfileB⟩] [])
            sampleProfileB true 9 "t" none).2.backups,
       b = ⟨9, 5, sampleProfile⟩ ∨ b ∈ [(⟨4, 2, sampleProfileB⟩ : BackupEntry)]) := by
  constructor
  · exact (save_backup_creation (StoreState.mk none [] []) sampleProfile sampleProfile
      true 3 0 "t" none).1
  · exact (save_backup_creation
      (StoreState.mk (some (sampleProfile, 5)) [⟨4, 2, sampleProfileB⟩] [])
      sampleProfileB sampleProfile true 9 5 "t" none).2 rfl
      (by intro b hb; simp at hb; simp [hb]) (by intro b hb; simp at hb; simp [hb])

/-- C6 (code bug): backup filenames are derived from a second-resolution
timestamp, so two backup-creating saves within the same second produce the
same filename and the second overwrites the first.  Shown by running two
overwriting saves at the same clock second `100`: after the first save the
backups folder holds one entry named `100` with the original content, and
after the second save it still holds exactly one entry named `100`, now
with the content of the first save — the first backup has been destroyed. -/
theorem same_second_backups_collide :
    (save_user_profile (StoreState.mk (some (sampleProfile, 50)) [] [])
        sampleProfileB true 100 "t1" none).2.backups
      = [⟨100, 50, sampleProfile⟩] ∧
    (save_user_profile
        (save_user_profile (StoreState.mk (some (sampleProfile, 50)) [] [])
          sampleProfileB true 100 "t1" none).2
        sampleProfile true 100 "t2" none).2.backups
      = [⟨100, 100, { sampleProfileB with last_updated := 100 }⟩] := by
  constructor
  · rfl
  · rfl

/-- C8 counterexample: the operation sequence of `save_user_profile`
contains no lock acquisition at all — the claim that every write of the
canonical file happens under an exclusive advisory lock is false of the
code (the save path writes a temporary file and calls `os.replace` without
ever calling `_lock_file`). -/
theorem save_takes_no_lock_counterexample :
    FileOp.lockExclusive ∉ saveOps true true ∧
    FileOp.lockShared ∉ saveOps true true := by
  decide

/-- C8 (amended): loads acquire a shared advisory lock non-blockingly and
fail immediately with a lock-contention error when an exclusive holder is
present; saves, however, acquire no advisory lock at all and rely only on
the atomic replace. -/
theorem lock_discipline_amended (s : StoreState) (p : UserProfile) (m now : Nat)
    (createBackup canonicalExists : Bool) (hc : s.canonical = some (p, m)) :
    load_user_profile s LockState.exclusiveHeld now
      = Except.error
          (LoadError.lockContention "User profile file is locked by another process") ∧
    FileOp.lockShared ∈ loadOps true ∧
    (∀ op ∈ loadOps canonicalExists, op ≠ FileOp.lockExclusive) ∧
    (∀ op ∈ saveOps createBackup canonicalExists,
      op ≠ FileOp.lockShared ∧ op ≠ FileOp.lockExclusive) := by
  refine ⟨?_, ?_, ?_, ?_⟩
  · simp [load_user_profile, hc]
  · simp [loadOps]
  · cases canonicalExists <;> simp [loadOps]
  · cases createBackup <;> cases canonicalExists <;> simp [saveOps]

/-- Witness for C8's amended statement at a concrete store. -/
theorem lock_discipline_amended_witness :
    ((StoreState.mk (some (sampleProfile, 5)) [] []).canonical = some (sampleProfile, 5)) ∧
    load_user_profile (StoreState.mk (some (sampleProfile, 5)) [] [])
        LockState.exclusiveHeld 7
      = Except.error
          (LoadError.lockContention "User profile file is locked by another process") :=
  ⟨rfl,
   (lock_discipline_amended (StoreState.mk (some (sampleProfile, 5)) [] [])
      sampleProfile 5 7 true true rfl).1⟩

/-- Names of the backups after a run of sequential backup-creating saves,
starting from a store satisfying the sequential-operation invariant:
the backup folder is, up to rotation at 10 entries, the save timestamps
newest first followed by the prior backups. -/
theorem runSaves_names (inputs : List (UserProfile × Nat)) (s : StoreState)
    (c0 : UserProfile) (m0 : Nat)
    (hc : s.canonical = some (c0, m0))
    (hsorted : SortedByMtimeDesc s.backups)
    (hmt : ∀ b ∈ s.backups, b.mtime < m0)
    (hname : ∀ b ∈ s.backups, b.name ≤ m0)
    (hlen : s.backups.length ≤ 10)
    (hchain : (m0 :: inputs.map Prod.snd).Pairwise (· < ·)) :
    (runSaves s inputs).backups.map BackupEntry.name
      = ((inputs.map Prod.snd).reverse ++ s.backups.map BackupEntry.name).take 10 := by
  induction inputs generalizing s c0 m0 with
  | nil =>
    have hl : (s.backups.map BackupEntry.name).length ≤ 10 := by simpa using hlen
    simpa [runSaves] using (List.take_of_length_le hl).symm
  | cons pt rest ih =>
    obtain ⟨p, t⟩ := pt
    have hchain1 := List.pairwise_cons.mp hchain
    have hm0t : m0 < t := hchain1.1 t (by simp)
    have hchain' : (t :: rest.map Prod.snd).Pairwise (· < ·) := hchain1.2
    have hnamet : ∀ b ∈ s.backups, b.name ≠ t := fun b hb =>
      Nat.ne_of_lt (lt_of_le_of_lt (hname b hb) hm0t)
    have hstep := save_step_backups s c0 m0 p t "tmp" none hc hmt hnamet
    rw [sortByMtimeDesc_eq_self hsorted] at hstep
    have hc' : (save_user_profile s p true t "tmp" none).2.canonical
        = some ({ p with last_updated := t }, t) :=
      save_success_canonical s p true t "tmp"
    have hsorted' : SortedByMtimeDesc (save_user_profile s p true t "tmp" none).2.backups := by
      rw [hstep]
      exact (List.pairwise_cons.mpr ⟨fun d hd => hmt d hd, hsorted⟩).sublist
        (List.take_sublist ..)
    have hmt' : ∀ b ∈ (save_user_profile s p true t "tmp" none).2.backups,
        b.mtime < t := by
      rw [hstep]
      intro b hb
      rcases List.mem_cons.mp (List.take_subset _ _ hb) with h | h
      · rw [h]; exact hm0t
      · exact lt_trans (hmt b h) hm0t
    have hname' : ∀ b ∈ (save_user_profile s p true t "tmp" none).2.backups,
        b.name ≤ t := by
      rw [hstep]
      intro b hb
      rcases List.mem_cons.mp (List.take_subset _ _ hb) with h | h
      · rw [h]
      · exact le_trans (hname b h) (le_of_lt hm0t)
    have hlen' : (save_user_profile s p true t "tmp" none).2.backups.length ≤ 10 := by
      rw [hstep, List.length_take]
      exact min_le_left _ _
    have ihres := ih (save_user_profile s p true t "tmp" none).2
      { p with last_updated := t } t hc' hsorted' hmt' hname' hlen' hchain'
    show (runSaves (save_user_profile s p true t "tmp" none).2 rest).backups.map
        BackupEntry.name = _
    rw [ihres, hstep, List.map_take]
    show ((rest.map Prod.snd).reverse
        ++ (t :: s.backups.map BackupEntry.name).take 10).take 10 = _
    rw [take_append_take]
    simp [List.append_assoc]

/-- C3: starting from a store with a canonical file and no backups, a
sequence of sequential backup-creating saves at strictly increasing clock
seconds leaves at any intermediate point at most 10 backup entries; after
the whole run the backup names are exactly the 10 most recent save
timestamps newest-first, so after more than 10 saves exactly 10 entries
remain. -/
theorem backup_rotation_cap (s : StoreState) (c0 : UserProfile) (m0 : Nat)
    (inputs : List (UserProfile × Nat))
    (hc : s.canonical = some (c0, m0)) (hb : s.backups = [])
    (hchain : (m0 :: inputs.map Prod.snd).Pairwise (· < ·)) :
    ((runSaves s inputs).backups.map BackupEntry.name
        = ((inputs.map Prod.snd).reverse).take 10) ∧
    (∀ n, (runSaves s (inputs.take n)).backups.length ≤ 10) ∧
    (10 < inputs.length → (runSaves s inputs).backups.length = 10) := by
  have main : ∀ n, (runSaves s (inputs.take n)).backups.map BackupEntry.name
      = (((inputs.take n).map Prod.snd).reverse).take 10 := by
    intro n
    have hsub : List.Sublist (m0 :: (inputs.take n).map Prod.snd)
        (m0 :: inputs.map Prod.snd) :=
      List.Sublist.cons₂ m0 ((List.take_sublist ..).map Prod.snd)
    have hch := hchain.sublist hsub
    have h := runSaves_names (inputs.take n) s c0 m0 hc
      (by rw [hb]; exact List.Pairwise.nil) (by rw [hb]; simp) (by rw [hb]; simp)
      (by rw [hb]; simp) hch
    simpa [hb] using h
  refine ⟨?_, ?_, ?_⟩
  · have h := main inputs.length
    simpa [List.take_length] using h
  · intro n
    have h := main n
    have hl : ((runSaves s (inputs.take n)).backups.map BackupEntry.name).length ≤ 10 := by
      rw [h, List.length_take]
      exact min_le_left _ _
    simpa using hl
  · intro hN
    have h := main inputs.length
    rw [List.take_length] at h
    have hl : ((runSaves s inputs).backups.map BackupEntry.name).length = 10 := by
      rw [h, List.length_take, List.length_reverse, List.length_map]
      exact min_eq_left (le_of_lt hN)
    simpa using hl

/-- Eleven overwriting saves at clock seconds 1 through 11. -/
def demoInputs : List (UserProfile × Nat) :=
  [(sampleProfile, 1), (sampleProfile, 2), (sampleProfile, 3), (sampleProfile, 4),
   (sampleProfile, 5), (sampleProfile, 6), (sampleProfile, 7), (sampleProfile, 8),
   (sampleProfile, 9), (sampleProfile, 10), (sampleProfile, 11)]

/-- Witness for C3: after 11 sequential overwriting saves exactly the 10
most recent backups remain, newest first. -/
theorem backup_rotation_cap_witness :
    (runSaves (StoreState.mk (some (sampleProfile, 0)) [] []) demoInputs).backups.map
        BackupEntry.name = [11, 10, 9, 8, 7, 6, 5, 4, 3, 2] ∧
    (runSaves (StoreState.mk (some (sampleProfile, 0)) [] []) demoInputs).backups.length
      = 10 := by
  have h := backup_rotation_cap (StoreState.mk (some (sampleProfile, 0)) [] [])
    sampleProfile 0 demoInputs rfl rfl (by decide)
  refine ⟨?_, h.2.2 (by decide)⟩
  rw [h.1]
  decide

/-! ### Configuration redaction: DataExporter._redact_config -/

/-- YAML-like configuration tree handled by `yaml.safe_load`. -/
inductive ConfigValue where
  | str (s : String)
  | num (n : Int)
  | bool (b : Bool)
  | null
  | dict (entries : List (String × ConfigValue))
  | arr (items : List ConfigValue)
deriving Repr

/-- The secret-like key names tested by `_redact_config`. -/
def SENSITIVE_KEYS : List String := ["api_key", "secret", "password", "token"]

/-- Model of Python's `str.lower()` (character-wise lowering). -/
def lowerString (s : String) : String := String.mk (s.data.map Char.toLower)

/-- Model of the test `key.lower() in ["api_key", "secret", "password",
"token"]`. -/
def isSensitiveKey (k : String) : Bool := SENSITIVE_KEYS.contains (lowerString k)

mutual

/-- DataExporter._redact_config's `redact_recursive`, as a pure transform:
in a keyed map every sensitive-named key's value becomes the marker
`"**REDACTED**"`, other map values and all list items are transformed
recursively (scalar values are unchanged, exactly as in the source where
the `elif isinstance(value, (dict, list))` branch skips them). -/
def redact_recursive : ConfigValue → ConfigValue
  | ConfigValue.str s => ConfigValue.str s
  | ConfigValue.num n => ConfigValue.num n
  | ConfigValue.bool b => ConfigValue.bool b
  | ConfigValue.null => ConfigValue.null
  | ConfigValue.dict entries => ConfigValue.dict (redactEntries entries)
  | ConfigValue.arr items => ConfigValue.arr (redactItems items)

/-- Redaction of the entries of a keyed map (a sensitive key keeps its
name and has its value replaced by the marker). -/
def redactEntries : List (String × ConfigValue) → List (String × ConfigValue)
  | [] => []
  | (k, v) :: rest =>
    (k, if isSensitiveKey k then ConfigValue.str "**REDACTED**"
        else redact_recursive v) :: redactEntries rest

/-- Redaction of the items of a list. -/
def redactItems : List ConfigValue → List ConfigValue
  | [] => []
  | v :: rest => redact_recursive v :: redactItems rest

end

/-- Scalar (non-container) configuration values. -/
def isScalarVal : ConfigValue → Bool
  | ConfigValue.dict _ => false
  | ConfigValue.arr _ => false
  | _ => true

/-- One step on an access path into a configuration tree. -/
inductive PathElem where
  | key (k : String)
  | idx (n : Nat)
deriving DecidableEq, Repr

/-- First entry of a keyed map with the given key. -/
def findEntry : List (String × ConfigValue) → String → Option ConfigValue
  | [], _ => none
  | (k, v) :: rest, target => if k = target then some v else findEntry rest target

/-- Access a configuration tree along a path of keys and indices. -/
def getPath : ConfigValue → List PathElem → Option ConfigValue
  | v, [] => some v
  | ConfigValue.dict entries, PathElem.key k :: rest =>
    match findEntry entries k with
    | some v => getPath v rest
    | none => none
  | ConfigValue.arr items, PathElem.idx n :: rest =>
    match items[n]? with
    | some v => getPath v rest
    | none => none
  | _, _ => none

/-- Path whose key steps all avoid the sensitive names. -/
def pathAvoidsSensitive : List PathElem → Bool
  | [] => true
  | PathElem.key k :: rest => !isSensitiveKey k && pathAvoidsSensitive rest
  | PathElem.idx _ :: rest => pathAvoidsSensitive rest

/-- Lookup in a redacted map: the value found under `k` is the marker when
`k` is sensitive and the redacted original value otherwise. -/
theorem findEntry_redactEntries (entries : List (String × ConfigValue)) (k : String) :
    findEntry (redactEntries entries) k
      = (findEntry entries k).map fun v =>
          if isSensitiveKey k then ConfigValue.str "**REDACTED**"
          else redact_recursive v := by
  induction entries with
  | nil => simp [redactEntries, findEntry]
  | cons kv rest ih =>
    obtain ⟨k', v⟩ := kv
    by_cases hk : k' = k
    · subst hk
      by_cases hs : isSensitiveKey k'
      · simp [redactEntries, findEntry, hs]
      · simp [redactEntries, findEntry, hs]
    · by_cases hs : isSensitiveKey k'
      · simp [redactEntries, findEntry, hs, hk, ih]
      · simp [redactEntries, findEntry, hs, hk, ih]

/-- Indexing a redacted list redacts the item found. -/
theorem redactItems_getElem (items : List ConfigValue) (n : Nat) :
    (redactItems items)[n]? = items[n]?.map redact_recursive := by
  induction items generalizing n with
  | nil => simp [redactItems]
  | cons v rest ih =>
    cases n with
    | zero => simp [redactItems]
    | succ m => simpa [redactItems] using ih m

/-- Scalar configuration values pass through redaction unchanged. -/
theorem redact_scalar (w : ConfigValue) (hw : isScalarVal w = true) :
    redact_recursive w = w := by
  cases w with
  | str s => simp [redact_recursive]
  | num n => simp [redact_recursive]
  | bool b => simp [redact_recursive]
  | null => simp [redact_recursive]
  | dict es => simp [isScalarVal] at hw
  | arr items => simp [isScalarVal] at hw

/-- Accessing a redacted tree along any path whose intermediate keys avoid
the sensitive names: the value found under a final key `k` is the fixed
marker when `k` is sensitive and the redacted original value otherwise. -/
theorem getPath_redact (p : List PathElem) :
    ∀ (t : ConfigValue) (k : String) (v : ConfigValue),
      pathAvoidsSensitive p = true →
      getPath t (p ++ [PathElem.key k]) = some v →
      getPath (redact_recursive t) (p ++ [PathElem.key k])
        = some (if isSensitiveKey k then ConfigValue.str "**REDACTED**"
                else redact_recursive v) := by
  induction p with
  | nil =>
    intro t k v _ hv
    cases t with
    | dict es =>
      rcases hfind : findEntry es k with _ | u
      · simp [getPath, hfind] at hv
      · simp [getPath, hfind] at hv
        subst hv
        simp [redact_recursive, getPath, findEntry_redactEntries, hfind]
    | str s => simp [getPath] at hv
    | num n => simp [getPath] at hv
    | bool b => simp [getPath] at hv
    | null => simp [getPath] at hv
    | arr items => simp [getPath] at hv
  | cons e rest ih =>
    intro t k v hp hv
    cases e with
    | key k' =>
      simp [pathAvoidsSensitive] at hp
      cases t with
      | dict es =>
        rcases hfind : findEntry es k' with _ | u
        · simp [getPath, hfind] at hv
        · simp [getPath, hfind] at hv
          have hgoal := ih u k v hp.2 hv
          simp [redact_recursive, getPath, findEntry_redactEntries, hfind, hp.1]
          exact hgoal
      | str s => simp [getPath] at hv
      | num n => simp [getPath] at hv
      | bool b => simp [getPath] at hv
      | null => simp [getPath] at hv
      | arr items => simp [getPath] at hv
    | idx n =>
      simp [pathAvoidsSensitive] at hp
      cases t with
      | arr items =>
        rcases hfind : items[n]? with _ | u
        · simp [getPath, hfind] at hv
        · simp [getPath, hfind] at hv
          have hgoal := ih u k v hp hv
          simp [redact_recursive, getPath, redactItems_getElem, hfind]
          exact hgoal
      | str s => simp [getPath] at hv
      | num n' => simp [getPath] at hv
      | bool b => simp [getPath] at hv
      | null => simp [getPath] at hv
      | dict es => simp [getPath] at hv

/-- C9: the export redaction transform replaces the value of every key
whose name case-insensitively matches a secret-like term (api_key, secret,
password, token) with the fixed redaction marker, at arbitrary nesting
depth inside both maps and lists, and leaves scalar values of all other
keys unchanged. -/
theorem redaction_spec (p : List PathElem) (t : ConfigValue) (k : String)
    (v : ConfigValue) (hp : pathAvoidsSensitive p = true)
    (hv : getPath t (p ++ [PathElem.key k]) = some v) :
    getPath (redact_recursive t) (p ++ [PathElem.key k])
      = some (if isSensitiveKey k then ConfigValue.str "**REDACTED**"
              else redact_recursive v) ∧
    (isScalarVal v = true → redact_recursive v = v) :=
  ⟨getPath_redact p t k v hp hv, fun hw => redact_scalar v hw⟩

/-- Configuration tree used by the redaction witness: a top-level
`api_key`, a nested `credentials.password`, and two non-secret keys. -/
def exampleConfig : ConfigValue :=
  ConfigValue.dict
    [("api_key", ConfigValue.str "sk-123"),
     ("endpoint", ConfigValue.str "https://api.example.com"),
     ("credentials",
      ConfigValue.dict
        [("user", ConfigValue.str "bob"),
         ("password", ConfigValue.str "hunter2")])]

/-- Witness for C9: both the top-level `api_key` and the nested
`credentials.password` become the marker, while `endpoint` and
`credentials.user` keep their values. -/
theorem redaction_spec_witness :
    getPath (redact_recursive exampleConfig) [PathElem.key "api_key"]
      = some (ConfigValue.str "**REDACTED**") ∧
    getPath (redact_recursive exampleConfig)
        [PathElem.key "credentials", PathElem.key "password"]
      = some (ConfigValue.str "**REDACTED**") ∧
    getPath (redact_recursive exampleConfig) [PathElem.key "endpoint"]
      = some (ConfigValue.str "https://api.example.com") ∧
    getPath (redact_recursive exampleConfig)
        [PathElem.key "credentials", PathElem.key "user"]
      = some (ConfigValue.str "bob") := by
  have h1 := redaction_spec [] exampleConfig "api_key" (ConfigValue.str "sk-123")
    rfl rfl
  have h2 := redaction_spec [PathElem.key "credentials"] exampleConfig "password"
    (ConfigValue.str "hunter2") (by decide) rfl
  have h3 := redaction_spec [] exampleConfig "endpoint"
    (ConfigValue.str "https://api.example.com") rfl rfl
  have h4 := redaction_spec [PathElem.key "credentials"] exampleConfig "user"
    (ConfigValue.str "bob") (by decide) rfl
  refine ⟨?_, ?_, ?_, ?_⟩
  · have hs : isSensitiveKey "api_key" = true := by decide
    simpa [hs] using h1.1
  · have hs : isSensitiveKey "password" = true := by decide
    simpa [hs] using h2.1
  · have hs : isSensitiveKey "endpoint" = false := by decide
    have hred := h3.2 rfl
    simpa [hs, hred] using h3.1
  · have hs : isSensitiveKey "user" = false := by decide
    have hred := h4.2 rfl
    simpa [hs, hred] using h4.1

/-! ### Archive bundles: backend/services/data/data_exporter.py -/

/-- Per-file manifest entry of metadata.json. -/
structure FileMeta where
  path : String
  size_bytes : Nat
  checksum_sha256 : String
deriving DecidableEq, Repr

/-- The metadata.json manifest built by `_generate_metadata`. -/
structure BackupMetadata where
  export_timestamp : String
  app_version : String
  total_size_bytes : Nat
  file_count : Nat
  files : List FileMeta
  missing_directories : List String
  notes : Option String
deriving DecidableEq, Repr

/-- First archive entry (or extracted file) at the given relative path. -/
def lookupEntry : List (String × List Nat) → String → Option (List Nat)
  | [], _ => none
  | (p, bytes) :: rest, target =>
    if p = target then some bytes else lookupEntry rest target

/-- A zip bundle as observed by `_validate_backup`: whether the container
opens at all (`zipfile.BadZipFile` otherwise), the first entry failing the
CRC self-check of `testzip`, the archive entries as relative path and byte
content, and the parse of `metadata.json` (`none`: absent from the
namelist; `some none`: present but unparseable; `some (some md)`: parsed). -/
structure ZipBundle where
  readable : Bool
  badEntry : Option String
  entries : List (String × List Nat)
  metadataJson : Option (Option BackupMetadata)
deriving Repr

/-- Aggregate result of `_validate_backup`. -/
structure ValidationResult where
  valid : Bool
  errors : List String
  warnings : List String
  metadata : Option BackupMetadata
deriving Repr

/-- The per-manifest-entry loop of `_validate_backup`: a missing extracted
file is reported and skipped; otherwise checksum and size are compared
against the manifest and every mismatch is accumulated. -/
def checkManifestFiles (checksum : List Nat → String) :
    List FileMeta → List (String × List Nat) → List String
  | [], _ => []
  | fm :: rest, entries =>
    (match lookupEntry entries fm.path with
     | none => ["Missing file: " ++ fm.path]
     | some bytes =>
       (if checksum bytes ≠ fm.checksum_sha256
        then ["Checksum mismatch for " ++ fm.path] else []) ++
       (if bytes.length ≠ fm.size_bytes
        then ["Size mismatch for " ++ fm.path ++ ": " ++ toString bytes.length
              ++ " != " ++ toString fm.size_bytes]
        else []))
    ++ checkManifestFiles checksum rest entries

/-- Re-validation of the extracted profile record against the schema
(`json.load` plus `UserProfile(**data)`, taken as a parameter since it is
library behaviour over raw bytes). -/
def profileSchemaErrors (parseProfile : List Nat → Except String Unit)
    (entries : List (String × List Nat)) : List String :=
  match lookupEntry entries "data/user_profile.json" with
  | none => []
  | some bytes =>
    match parseProfile bytes with
    | Except.ok _ => []
    | Except.error e => ["Invalid user profile schema: " ++ e]

/-- DataExporter._validate_backup: read-only validation of a bundle,
accumulating every error before returning. -/
def validate_backup (checksum : List Nat → String)
    (parseProfile : List Nat → Except String Unit)
    (zipExists : Bool) (zipPath : String) (bundle : ZipBundle) : ValidationResult :=
  if !zipExists then
    { valid := false, errors := ["Backup file not found: " ++ zipPath],
      warnings := [], metadata := none }
  else if !bundle.readable then
    { valid := false, errors := ["Backup is corrupted (invalid ZIP file)"],
      warnings := [], metadata := none }
  else
    match bundle.badEntry with
    | some name =>
      { valid := false,
        errors := ["Backup is corrupted: " ++ name ++ " failed CRC check"],
        warnings := [], metadata := none }
    | none =>
      match bundle.metadataJson with
      | none =>
        { valid := true, errors := [],
          warnings := ["metadata.json not found - unable to verify checksums"],
          metadata := none }
      | some none =>
        { valid := false, errors := ["Validation failed: invalid metadata.json"],
          warnings := [], metadata := none }
      | some (some md) =>
        let warnings :=
          if "1.0.0" < md.app_version then
            ["Backup from newer version (" ++ md.app_version ++ " > 1.0.0)"]
          else []
        let errors := checkManifestFiles checksum md.files bundle.entries
          ++ profileSchemaErrors parseProfile bundle.entries
        { valid := errors.isEmpty, errors := errors, warnings := warnings,
          metadata := some md }

/-- Live data directory as touched by import and export: canonical profile
bytes, configuration bytes, and the two auxiliary folders (absent or a
list of filename-content pairs). -/
structure LiveStore where
  profileFile : Option (List Nat)
  configFile : Option (List Nat)
  resumes : Option (List (String × List Nat))
  cover_letters : Option (List (String × List Nat))
deriving Repr

/-- Summary returned by a non-raising `import_from_backup`. -/
structure ImportSummary where
  success : Bool
  cancelled : Bool
  files_restored : Nat
  backup_created : Option String
  warnings : List String
deriving Repr

/-- The `ValueError` raised when validation fails. -/
inductive ImportError
  | validationFailed (errors : List String)
deriving Repr

/-- Overwrite-or-add a file in a folder, as `shutil.copy2` into an
existing directory does. -/
def upsertFile (files : List (String × List Nat)) (name : String)
    (bytes : List Nat) : List (String × List Nat) :=
  if files.any fun f => f.1 = name then
    files.map fun f => if f.1 = name then (name, bytes) else f
  else files ++ [(name, bytes)]

/-- Extracted files located under a directory of the archive. -/
def entriesUnder (entries : List (String × List Nat)) (dir : String) :
    List (String × List Nat) :=
  entries.filterMap fun e =>
    if e.1.startsWith (dir ++ "/") then some (e.1.drop (dir.length + 1), e.2)
    else none

/-- Copy the extracted files of one auxiliary folder into the live folder
(the folder is created when incoming files exist). -/
def restoreDir (existing : Option (List (String × List Nat)))
    (incoming : List (String × List Nat)) : Option (List (String × List Nat)) :=
  if incoming.isEmpty then existing
  else some (incoming.foldl (fun acc nb => upsertFile acc nb.1 nb.2)
    (existing.getD []))

/-- DataExporter.import_from_backup: validate first and raise
`ValueError` leaving the store untouched when invalid; otherwise ask for
confirmation when existing data would be overwritten, optionally trigger a
safety export, restore profile and auxiliary folders from the extracted
bundle, and deliberately skip config.yaml.  The confirmation callback's
answer is the `confirmAnswer` argument; the safety export is modelled as
succeeding. -/
def import_from_backup (checksum : List Nat → String)
    (parseProfile : List Nat → Except String Unit)
    (zipExists : Bool) (zipPath : String) (bundle : ZipBundle)
    (store : LiveStore) (confirm : Bool) (backup_existing : Bool)
    (confirmAnswer : Bool) : Except ImportError ImportSummary × LiveStore :=
  let validation := validate_backup checksum parseProfile zipExists zipPath bundle
  if !validation.valid then
    (Except.error (ImportError.validationFailed validation.errors), store)
  else
    let existingData := store.profileFile.isSome
      || !(store.resumes.getD []).isEmpty
      || !(store.cover_letters.getD []).isEmpty
    if existingData && confirm && !confirmAnswer then
      (Except.ok { success := false, cancelled := true, files_restored := 0,
                   backup_created := none, warnings := [] }, store)
    else
      let backup_created :=
        if backup_existing && existingData then
          some "autoresumefiller_backup.zip"
        else none
      let profileEntry := lookupEntry bundle.entries "data/user_profile.json"
      let resumesIncoming := entriesUnder bundle.entries "resumes"
      let lettersIncoming := entriesUnder bundle.entries "cover_letters"
      let store1 :=
        match profileEntry with
        | some bytes => { store with profileFile := some bytes }
        | none => store
      let store2 :=
        { store1 with resumes := restoreDir store1.resumes resumesIncoming }
      let store3 :=
        { store2 with
          cover_letters := restoreDir store2.cover_letters lettersIncoming }
      let files_restored := (if profileEntry.isSome then 1 else 0)
        + resumesIncoming.length + lettersIncoming.length
      (Except.ok
        { success := true, cancelled := false, files_restored := files_restored,
          backup_created := backup_created,
          warnings := validation.warnings
            ++ ["config.yaml not imported (preserved existing API keys)"] },
       store3)

/-- A manifest entry whose extracted bytes hash differently from its
recorded checksum contributes a checksum-mismatch error. -/
theorem checksum_mismatch_mem (checksum : List Nat → String)
    (files : List FileMeta) (entries : List (String × List Nat)) (fm : FileMeta)
    (bytes : List Nat) (hfm : fm ∈ files)
    (hentry : lookupEntry entries fm.path = some bytes)
    (hmis : checksum bytes ≠ fm.checksum_sha256) :
    ("Checksum mismatch for " ++ fm.path) ∈ checkManifestFiles checksum files entries := by
  induction files with
  | nil => cases hfm
  | cons g rest ih =>
    rcases List.mem_cons.mp hfm with h | h
    · subst h
      simp [checkManifestFiles, hentry, hmis]
    · exact List.mem_append_right _ (ih h)

/-- C2: whenever a bundle fails validation because an archived file's
bytes no longer match the manifest checksum, `_validate_backup` reports a
checksum-mismatch error for that file and `import_from_backup` raises
`ValueError` carrying all accumulated errors without modifying any file of
the live store. -/
theorem validation_blocks_import (checksum : List Nat → String)
    (parseProfile : List Nat → Except String Unit) (zipPath : String)
    (bundle : ZipBundle) (store : LiveStore)
    (confirm backup_existing confirmAnswer : Bool)
    (md : BackupMetadata) (fm : FileMeta) (bytes : List Nat)
    (hread : bundle.readable = true) (hcrc : bundle.badEntry = none)
    (hmd : bundle.metadataJson = some (some md))
    (hfm : fm ∈ md.files)
    (hentry : lookupEntry bundle.entries fm.path = some bytes)
    (hmis : checksum bytes ≠ fm.checksum_sha256) :
    ("Checksum mismatch for " ++ fm.path)
      ∈ (validate_backup checksum parseProfile true zipPath bundle).errors ∧
    (validate_backup checksum parseProfile true zipPath bundle).valid = false ∧
    import_from_backup checksum parseProfile true zipPath bundle store confirm
        backup_existing confirmAnswer
      = (Except.error (ImportError.validationFailed
          (validate_backup checksum parseProfile true zipPath bundle).errors),
         store) := by
  have hmem := checksum_mismatch_mem checksum md.files bundle.entries fm bytes
    hfm hentry hmis
  have herrs : (validate_backup checksum parseProfile true zipPath bundle).errors
      = checkManifestFiles checksum md.files bundle.entries
        ++ profileSchemaErrors parseProfile bundle.entries := by
    simp [validate_backup, hread, hcrc, hmd]
  have hmemv : ("Checksum mismatch for " ++ fm.path)
      ∈ (validate_backup checksum parseProfile true zipPath bundle).errors := by
    rw [herrs]
    exact List.mem_append_left _ hmem
  have hvalid : (validate_backup checksum parseProfile true zipPath bundle).valid
      = false := by
    have hne : (validate_backup checksum parseProfile true zipPath bundle).errors
        ≠ [] := List.ne_nil_of_mem hmemv
    simp [validate_backup, hread, hcrc, hmd] at hne ⊢
    simpa [List.isEmpty_iff] using hne
  refine ⟨hmemv, hvalid, ?_⟩
  simp [import_from_backup, hvalid]

/-- Simple concrete checksum standing in for the SHA-256 parameter in the
witness: the decimal digit sum of the bytes, which differs after the
one-byte flip below. -/
def sumChecksum (l : List Nat) : String := toString (l.foldl (· + ·) 0)

/-- Concrete stand-in for the profile re-parse, accepting everything. -/
def okParse : List Nat → Except String Unit := fun _ => Except.ok ()

/-- Manifest recording the original bytes `[1, 2, 3]` of the archived
profile file (size 3, digit-sum checksum "6"). -/
def demoMeta : BackupMetadata :=
  { export_timestamp := "2025-11-29T10:00:00", app_version := "1.0.0",
    total_size_bytes := 3, file_count := 1,
    files := [{ path := "data/user_profile.json", size_bytes := 3,
                checksum_sha256 := "6" }],
    missing_directories := [], notes := none }

/-- The bundle after flipping one byte of the archived file (3 became 4)
without updating the manifest. -/
def demoBundle : ZipBundle :=
  { readable := true, badEntry := none,
    entries := [("data/user_profile.json", [1, 2, 4])],
    metadataJson := some (some demoMeta) }

/-- A live store with existing data, to be protected from the bad import. -/
def demoStore : LiveStore :=
  { profileFile := some [9, 9], configFile := some [7],
    resumes := some [("cv.pdf", [1])], cover_letters := none }

/-- Witness for C2 at the one-byte-flip bundle: the mismatch error is
reported, validation fails, and import raises leaving the store unchanged. -/
theorem validation_blocks_import_witness :
    ("Checksum mismatch for data/user_profile.json")
      ∈ (validate_backup sumChecksum okParse true "b.zip" demoBundle).errors ∧
    (validate_backup sumChecksum okParse true "b.zip" demoBundle).valid = false ∧
    import_from_backup sumChecksum okParse true "b.zip" demoBundle demoStore
        true true true
      = (Except.error (ImportError.validationFailed
          (validate_backup sumChecksum okParse true "b.zip" demoBundle).errors),
         demoStore) :=
  validation_blocks_import sumChecksum okParse "b.zip" demoBundle demoStore
    true true true demoMeta
    { path := "data/user_profile.json", size_bytes := 3, checksum_sha256 := "6" }
    [1, 2, 4] rfl rfl rfl (by decide) rfl (by decide)

/-! ### Export: DataExporter.export_all -/

/-- The file at the export output path: either a completely written
archive or the partial archive left behind by an interrupted write. -/
inductive ArchiveFile
  | complete (entries : List (String × List Nat))
  | incomplete (entries : List (String × List Nat))
deriving Repr

/-- Where an injected I/O failure hits `export_all`: while staging files
into the temporary directory (before the archive exists), or while writing
the archive at the output path, after `entriesWritten` entries. -/
inductive ExportFailAt
  | stagingFail (msg : String)
  | zipFail (entriesWritten : Nat) (msg : String)
deriving Repr

/-- Python's `"config" in path` substring test. -/
def containsConfig (s : String) : Bool := decide (1 < (s.splitOn "config").length)

/-- Files staged by `export_all` in staging order: the canonical profile
under `data/`, the redacted configuration, then the contents of the two
auxiliary folders (absent folders contribute nothing). -/
def stagedFiles (redactBytes : List Nat → List Nat) (store : LiveStore) :
    List (String × List Nat) :=
  (match store.profileFile with
   | some b => [("data/user_profile.json", b)]
   | none => []) ++
  (match store.configFile with
   | some b => [("config.yaml", redactBytes b)]
   | none => []) ++
  ((store.resumes.getD []).map fun f => ("resumes/" ++ f.1, f.2)) ++
  ((store.cover_letters.getD []).map fun f => ("cover_letters/" ++ f.1, f.2))

/-- Auxiliary folders recorded as missing rather than failing the export. -/
def missingDirs (store : LiveStore) : List String :=
  (if store.resumes.isSome then [] else ["resumes"]) ++
  (if store.cover_letters.isSome then [] else ["cover_letters"])

/-- Manifest entries of the staged files (declared size and checksum). -/
def filesMetadata (checksum : List Nat → String) (redactBytes : List Nat → List Nat)
    (store : LiveStore) : List FileMeta :=
  (stagedFiles redactBytes store).map fun e =>
    { path := e.1, size_bytes := e.2.length, checksum_sha256 := checksum e.2 }

/-- DataExporter._generate_metadata. -/
def generate_metadata (files : List FileMeta) (missing_dirs : List String)
    (timestamp : String) : BackupMetadata :=
  { export_timestamp := timestamp, app_version := "1.0.0",
    total_size_bytes := (files.map FileMeta.size_bytes).sum,
    file_count := files.length, files := files,
    missing_directories := missing_dirs,
    notes := if files.any fun f => containsConfig f.path then
        some "API keys redacted for security"
      else none }

/-- Summary returned by a successful `export_all` (timing omitted). -/
structure ExportSummary where
  success : Bool
  output_filename : String
  files_exported : Nat
  missing_directories : List String
  warnings : List String
deriving Repr

/-- DataExporter.export_all: stage the store's files (in an isolated
temporary directory), generate metadata.json, then write the zip archive
directly at the output path by walking the staging tree.  A staging
failure aborts before the archive is created, leaving the output path as
it was; a failure while writing the archive leaves a partial archive at
the output path, because the archive is opened there and not moved into
place afterwards.  YAML redaction at the byte level and metadata encoding
are parameters (library serialization). -/
def export_all (checksum : List Nat → String) (redactBytes : List Nat → List Nat)
    (encodeMetadata : BackupMetadata → List Nat) (timestamp : String)
    (outputName : String) (store : LiveStore) (output : Option ArchiveFile)
    (failAt : Option ExportFailAt) :
    Except String ExportSummary × Option ArchiveFile :=
  let staged := stagedFiles redactBytes store
  let files := filesMetadata checksum redactBytes store
  let md := generate_metadata files (missingDirs store) timestamp
  let allEntries := staged ++ [("metadata.json", encodeMetadata md)]
  match failAt with
  | some (ExportFailAt.stagingFail msg) =>
    (Except.error ("IOError: " ++ msg), output)
  | some (ExportFailAt.zipFail k msg) =>
    (Except.error ("IOError: " ++ msg),
     some (ArchiveFile.incomplete (allEntries.take k)))
  | none =>
    (Except.ok
      { success := true, output_filename := outputName,
        files_exported := files.length,
        missing_directories := missingDirs store,
        warnings := (missingDirs store).map fun d => "Directory not found: " ++ d },
     some (ArchiveFile.complete allEntries))

/-- Store with only a canonical profile, used by the export scenarios. -/
def exportDemoStore : LiveStore :=
  { profileFile := some [1, 2, 3], configFile := none,
    resumes := none, cover_letters := none }

/-- Concrete metadata encoder for the export scenarios. -/
def demoEncode : BackupMetadata → List Nat := fun _ => [0]

/-- C7 counterexample: an I/O failure while the archive is being written
(after one entry) leaves a partial bundle at the final output path —
starting with nothing at the output path, the export fails and a file that
is not a complete bundle now exists there, contradicting the claim that a
file appears at the output path only when it is a complete bundle. -/
theorem export_partial_bundle_counterexample :
    (export_all sumChecksum id demoEncode "t" "out.zip" exportDemoStore none
        (some (ExportFailAt.zipFail 1 "disk full"))).1
      = Except.error "IOError: disk full" ∧
    (export_all sumChecksum id demoEncode "t" "out.zip" exportDemoStore none
        (some (ExportFailAt.zipFail 1 "disk full"))).2
      = some (ArchiveFile.incomplete [("data/user_profile.json", [1, 2, 3])]) := by
  constructor
  · rfl
  · rfl

/-- C7 (amended): an I/O error during staging aborts the export with an
`IOError` and leaves the output path exactly as it was (no partial bundle
from staging), and a successful export puts the complete bundle there; an
I/O error while the archive itself is being written, however, leaves a
partial archive at the output path because the zip is written in place. -/
theorem export_failure_behavior (checksum : List Nat → String)
    (redactBytes : List Nat → List Nat) (encodeMetadata : BackupMetadata → List Nat)
    (timestamp outputName msg : String) (store : LiveStore)
    (output : Option ArchiveFile) (k : Nat) :
    export_all checksum redactBytes encodeMetadata timestamp outputName store
        output (some (ExportFailAt.stagingFail msg))
      = (Except.error ("IOError: " ++ msg), output) ∧
    (export_all checksum redactBytes encodeMetadata timestamp outputName store
        output none).2
      = some (ArchiveFile.complete (stagedFiles redactBytes store
          ++ [("metadata.json", encodeMetadata (generate_metadata
                (filesMetadata checksum redactBytes store) (missingDirs store)
                timestamp))])) ∧
    (export_all checksum redactBytes encodeMetadata timestamp outputName store
        output (some (ExportFailAt.zipFail k msg))).2
      = some (ArchiveFile.incomplete ((stagedFiles redactBytes store
          ++ [("metadata.json", encodeMetadata (generate_metadata
                (filesMetadata checksum redactBytes store) (missingDirs store)
                timestamp))]).take k)) :=
  ⟨rfl, rfl, rfl⟩
